import Mathlib

/-!
Shallow embedding of the nutrition-advice core of `vision1.py`
(Smart Food Analyzer): nutrition lookup, health-goal extraction,
the recommendation rule engine, sentiment classification and the
feedback store, together with theorems checking the specification's
claims against these definitions.

Numeric nutrient values are modelled as rationals (`ℚ`); a Python value
that may be `None` (a missing dict key or a null JSON field) is modelled
as `Option ℚ`.
-/

/-- Python truthiness coercion `x or 0` applied to a nullable number:
`None` becomes `0`, the number `0` stays `0`, any other number is kept.
Numerically this is exactly `Option.getD · 0`. -/
def pyNum (x : Option ℚ) : ℚ := x.getD 0

/-- The health-goal flag dictionary produced by `extract_health_goals`:
keys `"diabetes"`, `"weight_loss"`, `"high_bp"`. -/
structure HealthGoals where
  diabetes : Bool
  weight_loss : Bool
  high_bp : Bool
deriving DecidableEq, Repr

/-- `health_goals.get(k)` on a missing dictionary (the `health_goals or {}`
default) yields a falsy value: all flags read as false. -/
def HealthGoals.allFalse : HealthGoals := ⟨false, false, false⟩

/-- The nutrition dictionary built by `get_nutrition_info`: key `"Food"`
plus the eight nullable numeric keys `"Calories"`, `"Proteins (g)"`,
`"Sweetness (g)"`, `"Sodium (mg)"`, `"Total Fat (g)"`,
`"Cholesterol (mg)"`, `"Potassium (mg)"`, `"Total Carbohydrates (g)"`. -/
structure NutritionRecord where
  food : String := ""
  calories : Option ℚ := none
  proteins : Option ℚ := none
  sweetness : Option ℚ := none
  sodium : Option ℚ := none
  total_fat : Option ℚ := none
  cholesterol : Option ℚ := none
  potassium : Option ℚ := none
  total_carbs : Option ℚ := none
deriving DecidableEq, Repr

/-- Rule 1 message: `"⚠️ High in calories."` plus the weight-loss caution
appended when the `weight_loss` flag is set (vision1.py lines 83-85). -/
def caloriesMsg (hg : HealthGoals) : String :=
  if hg.weight_loss then
    "⚠️ High in calories." ++ " Try to limit this if you\x27re trying to lose weight."
  else
    "⚠️ High in calories."

/-- Rule 2 message: `"🍬 High sweetness level."` plus the diabetes glycemic
warning when the `diabetes` flag is set, else the generic moderation note
(vision1.py lines 89-93). -/
def sweetnessMsg (hg : HealthGoals) : String :=
  if hg.diabetes then
    "🍬 High sweetness level." ++ " This may spike blood sugar — go for lower glycemic index foods."
  else
    "🍬 High sweetness level." ++ " Consume moderately to avoid sugar crashes."

/-- Rule 3 message: `"🧂 Very salty!"` plus the blood-pressure warning when
the `high_bp` flag is set (vision1.py lines 97-99). -/
def sodiumMsg (hg : HealthGoals) : String :=
  if hg.high_bp then
    "🧂 Very salty!" ++ " High sodium may increase blood pressure — consider low-sodium alternatives."
  else
    "🧂 Very salty!"

/-- Rule 4 message (vision1.py line 103). -/
def proteinMsg : String := "💪 Good protein source — helpful for muscle maintenance."

/-- Rule 5 message (vision1.py line 106). -/
def fatMsg : String := "⚡ High in fat — consume moderately if aiming for weight control."

/-- Rule 6 message (vision1.py line 109). -/
def cholesterolMsg : String := "🫀 High cholesterol content — reduce intake for heart health."

/-- Rule 7 message (vision1.py line 112). -/
def potassiumMsg : String := "🍌 Good potassium source — helps with muscle function and blood pressure regulation."

/-- Rule 8 message (vision1.py line 115). -/
def carbsMsg : String := "🥖 High in carbs — if you\x27re watching carbs (e.g., keto diet), consider alternatives."

/-- Fallback message when no rule fires (vision1.py line 118). -/
def fallbackMsg : String := "✅ Balanced food. Looks like a healthy option!"

/-- `give_recommendations(nutrition, health_goals=None)`: evaluates the
eight threshold rules in source order, appending each triggered rule's
message; `health_goals or {}` makes missing flags read false; the
potassium rule carries the extra truthiness guard `potassium and
potassium > 400`; if no rule fired, the single fallback message is
returned (vision1.py lines 69-120). -/
def give_recommendations (nutrition : NutritionRecord)
    (health_goals : Option HealthGoals := none) : List String :=
  let hg := health_goals.getD HealthGoals.allFalse
  let calories := pyNum nutrition.calories
  let sweetness := pyNum nutrition.sweetness
  let sodium := pyNum nutrition.sodium
  let protein := pyNum nutrition.proteins
  let fat := pyNum nutrition.total_fat
  let cholesterol := pyNum nutrition.cholesterol
  let potassium := pyNum nutrition.potassium
  let carbs := pyNum nutrition.total_carbs
  let advice :=
    (if calories > 500 then [caloriesMsg hg] else []) ++
    (if sweetness > 20 then [sweetnessMsg hg] else []) ++
    (if sodium > 1500 then [sodiumMsg hg] else []) ++
    (if protein > 15 then [proteinMsg] else []) ++
    (if fat > 20 then [fatMsg] else []) ++
    (if cholesterol > 200 then [cholesterolMsg] else []) ++
    (if potassium ≠ 0 ∧ potassium > 400 then [potassiumMsg] else []) ++
    (if carbs > 50 then [carbsMsg] else [])
  if advice = [] then [fallbackMsg] else advice

/-- Occurrence of `pat` as a contiguous run inside `text`, on character
lists: true iff some suffix of `text` starts with `pat`. -/
def occursInChars (pat : List Char) : List Char → Bool
  | [] => pat.isEmpty
  | c :: cs => pat.isPrefixOf (c :: cs) || occursInChars pat cs

/-- Python's substring test `pat in text` on strings. -/
def strContains (text pat : String) : Bool :=
  occursInChars pat.data text.data

/-- Python `str.lower()` restricted to ASCII case mapping, modelled on the
character list of the string. -/
def strLower (s : String) : String := ⟨s.data.map Char.toLower⟩

/-- `extract_health_goals(prompt)`: lower-cases the prompt and sets each
flag by keyword substring presence (vision1.py lines 61-67). -/
def extract_health_goals (prompt : String) : HealthGoals :=
  let p := strLower prompt
  { diabetes := strContains p "diabetes"
    weight_loss := strContains p "weight loss" || strContains p "losing weight"
    high_bp := strContains p "blood pressure" || strContains p "bp" || strContains p "hypertension" }

/-- Python `str.title()` on ASCII text: an alphabetic character is
upper-cased when it follows a non-alphabetic character and lower-cased
otherwise; the Boolean argument tracks whether the previous character
was alphabetic. -/
def pyTitleGo : Bool → List Char → List Char
  | _, [] => []
  | prevAlpha, c :: cs =>
    if c.isAlpha then
      (if prevAlpha then c.toLower else c.toUpper) :: pyTitleGo true cs
    else
      c :: pyTitleGo false cs

/-- Python `str.title()` applied to a string. -/
def pyTitle (s : String) : String := ⟨pyTitleGo false s.data⟩

/-- One element of the `foods` array of a Nutritionix response; each
`nf_*` field is a nullable number. -/
structure Food where
  food_name : String := ""
  nf_calories : Option ℚ := none
  nf_protein : Option ℚ := none
  nf_sugars : Option ℚ := none
  nf_sodium : Option ℚ := none
  nf_total_fat : Option ℚ := none
  nf_cholesterol : Option ℚ := none
  nf_potassium : Option ℚ := none
  nf_total_carbohydrate : Option ℚ := none
deriving DecidableEq, Repr

/-- The HTTP response from the nutrition lookup: status code and, when
the JSON body has a `foods` key, the list under that key (`none` models
a body without the key). -/
structure NutritionResponse where
  status_code : ℕ
  foods : Option (List Food)
deriving DecidableEq, Repr

/-- Outcome of `get_nutrition_info`: a nutrition dictionary, the `None`
return (surfaced by the caller as "Could not fetch nutrition
information"), or the uncaught `IndexError` that `data['foods'][0]`
raises when the `foods` list is present but empty. -/
inductive LookupResult where
  | ok (r : NutritionRecord)
  | noResult
  | indexError
deriving DecidableEq, Repr

/-- `get_nutrition_info(food_name)` after the HTTP call, as a function of
the response (vision1.py lines 34-59): on status 200 with a `foods` key
it builds the nutrition dictionary from `data['foods'][0]`, title-casing
the food name and substituting 0 for a null `nf_sugars`; otherwise it
returns `None`. Indexing `data['foods'][0]` on an empty list raises
`IndexError`. -/
def get_nutrition_info (resp : NutritionResponse) : LookupResult :=
  if resp.status_code = 200 then
    match resp.foods with
    | some (f :: _) =>
        .ok { food := pyTitle f.food_name
              calories := f.nf_calories
              proteins := f.nf_protein
              sweetness := some (pyNum f.nf_sugars)
              sodium := f.nf_sodium
              total_fat := f.nf_total_fat
              cholesterol := f.nf_cholesterol
              potassium := f.nf_potassium
              total_carbs := f.nf_total_carbohydrate }
    | some [] => .indexError
    | none => .noResult
  else .noResult

/-- `analyze_sentiment(comment)` (vision1.py lines 122-130): buckets the
TextBlob polarity score of the comment by sign. The fixed lexicon-based
scorer is the function argument `polarity`; the classifier itself is the
sign bucketing. -/
def analyze_sentiment (polarity : String → ℚ) (comment : String) : String :=
  let p := polarity comment
  if p > 0 then "😊 Positive"
  else if p < 0 then "😔 Negative"
  else "😐 Neutral"

/-- One row of `feedback.csv` as a record (vision1.py lines 135-141). -/
structure FeedbackEntry where
  name : String
  age : ℕ
  satisfaction : ℕ
  comment : String
  sentiment : String
deriving DecidableEq, Repr

/-- The column set of the feedback DataFrame, in order. -/
def feedbackColumns : List String := ["Name", "Age", "Satisfaction", "Comment", "Sentiment"]

/-- The CSV row serialising one feedback entry, column for column. -/
def entryRow (e : FeedbackEntry) : List String :=
  [e.name, toString e.age, toString e.satisfaction, e.comment, e.sentiment]

/-- The persisted `feedback.csv` contents: header row then one row per
entry in store order. -/
def feedbackCSV (entries : List FeedbackEntry) : List (List String) :=
  feedbackColumns :: entries.map entryRow

/-- `save_feedback(user_name, user_age, satisfaction, comment)`
(vision1.py lines 132-149): classifies the comment's sentiment, builds
the new row, and writes back either the existing rows with the new row
appended (when `feedback.csv` exists, modelled by `some existing`) or a
file with just the new row. -/
def save_feedback (polarity : String → ℚ) (store : Option (List FeedbackEntry))
    (user_name : String) (user_age : ℕ) (satisfaction : ℕ) (comment : String) :
    List FeedbackEntry :=
  let sentiment := analyze_sentiment polarity comment
  let new_feedback : FeedbackEntry := ⟨user_name, user_age, satisfaction, comment, sentiment⟩
  match store with
  | some existing => existing ++ [new_feedback]
  | none => [new_feedback]

/-- The per-label count behind `feedback['Sentiment'].value_counts()` in
`show_sentiment_graph` (vision1.py lines 151-162): how many stored
entries carry the given sentiment label. -/
def sentimentCount (entries : List FeedbackEntry) (label : String) : ℕ :=
  (entries.filter fun e => e.sentiment == label).length

/-- The four user-supplied fields of one feedback submission. -/
structure FeedbackInput where
  user_name : String
  user_age : ℕ
  satisfaction : ℕ
  comment : String
deriving DecidableEq, Repr

/-- The feedback entry that `save_feedback` builds for one submission. -/
def entryOf (polarity : String → ℚ) (i : FeedbackInput) : FeedbackEntry :=
  ⟨i.user_name, i.user_age, i.satisfaction, i.comment, analyze_sentiment polarity i.comment⟩

/-- Running `save_feedback` once per submission, in order, starting from
the given store state (`none` = no `feedback.csv` yet). -/
def appendAllFrom (polarity : String → ℚ) (store : Option (List FeedbackEntry))
    (inputs : List FeedbackInput) : Option (List FeedbackEntry) :=
  inputs.foldl
    (fun st i => some (save_feedback polarity st i.user_name i.user_age i.satisfaction i.comment))
    store

/-- Reading the persisted store back: the stored rows, or nothing when
the file was never written. -/
def readStore (store : Option (List FeedbackEntry)) : List FeedbackEntry := store.getD []

/-! ## Rule conditions and characterization lemmas -/

/-- Condition of rule 1. -/
def firesCalories (n : NutritionRecord) : Prop := pyNum n.calories > 500
/-- Condition of rule 2. -/
def firesSweetness (n : NutritionRecord) : Prop := pyNum n.sweetness > 20
/-- Condition of rule 3. -/
def firesSodium (n : NutritionRecord) : Prop := pyNum n.sodium > 1500
/-- Condition of rule 4. -/
def firesProtein (n : NutritionRecord) : Prop := pyNum n.proteins > 15
/-- Condition of rule 5. -/
def firesFat (n : NutritionRecord) : Prop := pyNum n.total_fat > 20
/-- Condition of rule 6. -/
def firesCholesterol (n : NutritionRecord) : Prop := pyNum n.cholesterol > 200
/-- Condition of rule 7, with the source's extra truthiness guard
`potassium and potassium > 400`. -/
def firesPotassium (n : NutritionRecord) : Prop :=
  pyNum n.potassium ≠ 0 ∧ pyNum n.potassium > 400
/-- Condition of rule 8. -/
def firesCarbs (n : NutritionRecord) : Prop := pyNum n.total_carbs > 50

instance (n : NutritionRecord) : Decidable (firesCalories n) := by
  unfold firesCalories; exact inferInstance
instance (n : NutritionRecord) : Decidable (firesSweetness n) := by
  unfold firesSweetness; exact inferInstance
instance (n : NutritionRecord) : Decidable (firesSodium n) := by
  unfold firesSodium; exact inferInstance
instance (n : NutritionRecord) : Decidable (firesProtein n) := by
  unfold firesProtein; exact inferInstance
instance (n : NutritionRecord) : Decidable (firesFat n) := by
  unfold firesFat; exact inferInstance
instance (n : NutritionRecord) : Decidable (firesCholesterol n) := by
  unfold firesCholesterol; exact inferInstance
instance (n : NutritionRecord) : Decidable (firesPotassium n) := by
  unfold firesPotassium; exact inferInstance
instance (n : NutritionRecord) : Decidable (firesCarbs n) := by
  unfold firesCarbs; exact inferInstance

/-- No rule condition holds. -/
def noRuleFires (n : NutritionRecord) : Prop :=
  ¬firesCalories n ∧ ¬firesSweetness n ∧ ¬firesSodium n ∧ ¬firesProtein n ∧
  ¬firesFat n ∧ ¬firesCholesterol n ∧ ¬firesPotassium n ∧ ¬firesCarbs n

instance (n : NutritionRecord) : Decidable (noRuleFires n) := by
  unfold noRuleFires; exact inferInstance

/-- The list of triggered rule messages, in rule order; definitionally the
`advice` list of `give_recommendations` before the fallback check. -/
def triggeredAdvice (n : NutritionRecord) (hg : HealthGoals) : List String :=
  (if firesCalories n then [caloriesMsg hg] else []) ++
  (if firesSweetness n then [sweetnessMsg hg] else []) ++
  (if firesSodium n then [sodiumMsg hg] else []) ++
  (if firesProtein n then [proteinMsg] else []) ++
  (if firesFat n then [fatMsg] else []) ++
  (if firesCholesterol n then [cholesterolMsg] else []) ++
  (if firesPotassium n then [potassiumMsg] else []) ++
  (if firesCarbs n then [carbsMsg] else [])

/-- The first character of a message; each rule message starts with its
own marker character, so distinct rules never produce equal strings. -/
def msgTag (s : String) : Char := s.data.headD ' '

/-- The record with every numeric field absent. -/
def emptyRecord : NutritionRecord := {}

/-- The record with every numeric field exactly at its rule's threshold. -/
def thresholdRecord : NutritionRecord :=
  { calories := some 500, sweetness := some 20, sodium := some 1500,
    proteins := some 15, total_fat := some 20, cholesterol := some 200,
    potassium := some 400, total_carbs := some 50 }

/-- The record triggering only the protein rule. -/
def proteinOnlyRecord : NutritionRecord := { proteins := some 16 }

/-- The record triggering only the calorie rule. -/
def highCalRecord : NutritionRecord := { calories := some 600 }

/-- `give_recommendations` with the potassium rule written in the same
shape as the other seven rules: the bare strict comparison, without the
extra truthiness guard. -/
def give_recommendations_uniform (nutrition : NutritionRecord)
    (health_goals : Option HealthGoals := none) : List String :=
  let hg := health_goals.getD HealthGoals.allFalse
  let calories := pyNum nutrition.calories
  let sweetness := pyNum nutrition.sweetness
  let sodium := pyNum nutrition.sodium
  let protein := pyNum nutrition.proteins
  let fat := pyNum nutrition.total_fat
  let cholesterol := pyNum nutrition.cholesterol
  let potassium := pyNum nutrition.potassium
  let carbs := pyNum nutrition.total_carbs
  let advice :=
    (if calories > 500 then [caloriesMsg hg] else []) ++
    (if sweetness > 20 then [sweetnessMsg hg] else []) ++
    (if sodium > 1500 then [sodiumMsg hg] else []) ++
    (if protein > 15 then [proteinMsg] else []) ++
    (if fat > 20 then [fatMsg] else []) ++
    (if cholesterol > 200 then [cholesterolMsg] else []) ++
    (if potassium > 400 then [potassiumMsg] else []) ++
    (if carbs > 50 then [carbsMsg] else [])
  if advice = [] then [fallbackMsg] else advice

lemma give_recommendations_some (n : NutritionRecord) (hg : HealthGoals) :
    give_recommendations n (some hg) =
      if triggeredAdvice n hg = [] then [fallbackMsg] else triggeredAdvice n hg := rfl

lemma give_recommendations_none (n : NutritionRecord) :
    give_recommendations n none = give_recommendations n (some HealthGoals.allFalse) := rfl

lemma mem_iteSingleton {c : Prop} [Decidable c] {x m : String} :
    m ∈ (if c then [x] else []) ↔ c ∧ m = x := by
  split <;> rename_i h <;> simp [h]

lemma iteSingleton_eq_nil {c : Prop} [Decidable c] {x : String} :
    (if c then [x] else []) = [] ↔ ¬c := by
  split <;> rename_i h <;> simp [h]

lemma triggeredAdvice_eq_nil_iff (n : NutritionRecord) (hg : HealthGoals) :
    triggeredAdvice n hg = [] ↔ noRuleFires n := by
  simp [triggeredAdvice, noRuleFires, List.append_eq_nil, iteSingleton_eq_nil]

lemma mem_triggeredAdvice_iff (n : NutritionRecord) (hg : HealthGoals) (m : String) :
    m ∈ triggeredAdvice n hg ↔
      (firesCalories n ∧ m = caloriesMsg hg) ∨ (firesSweetness n ∧ m = sweetnessMsg hg) ∨
      (firesSodium n ∧ m = sodiumMsg hg) ∨ (firesProtein n ∧ m = proteinMsg) ∨
      (firesFat n ∧ m = fatMsg) ∨ (firesCholesterol n ∧ m = cholesterolMsg) ∨
      (firesPotassium n ∧ m = potassiumMsg) ∨ (firesCarbs n ∧ m = carbsMsg) := by
  simp [triggeredAdvice, mem_iteSingleton]

/-- Membership in the advisory list: one of the eight rules fired and
produced this message, or nothing fired and this is the fallback. -/
lemma mem_give_recommendations_iff (n : NutritionRecord) (hg : HealthGoals) (m : String) :
    m ∈ give_recommendations n (some hg) ↔
      (firesCalories n ∧ m = caloriesMsg hg) ∨ (firesSweetness n ∧ m = sweetnessMsg hg) ∨
      (firesSodium n ∧ m = sodiumMsg hg) ∨ (firesProtein n ∧ m = proteinMsg) ∨
      (firesFat n ∧ m = fatMsg) ∨ (firesCholesterol n ∧ m = cholesterolMsg) ∨
      (firesPotassium n ∧ m = potassiumMsg) ∨ (firesCarbs n ∧ m = carbsMsg) ∨
      (noRuleFires n ∧ m = fallbackMsg) := by
  rw [give_recommendations_some]
  by_cases hA : triggeredAdvice n hg = []
  · obtain ⟨h1, h2, h3, h4, h5, h6, h7, h8⟩ := (triggeredAdvice_eq_nil_iff n hg).1 hA
    rw [if_pos hA]
    simp [noRuleFires, h1, h2, h3, h4, h5, h6, h7, h8]
  · rw [if_neg hA]
    have hnf : ¬ noRuleFires n := fun hh => hA ((triggeredAdvice_eq_nil_iff n hg).2 hh)
    rw [mem_triggeredAdvice_iff]
    simp [hnf]

/-! ## Message tags -/

@[simp] lemma msgTag_caloriesMsg (hg : HealthGoals) : msgTag (caloriesMsg hg) = '⚠' := by
  cases h : hg.weight_loss <;> simp [caloriesMsg, h] <;> decide

@[simp] lemma msgTag_sweetnessMsg (hg : HealthGoals) : msgTag (sweetnessMsg hg) = '🍬' := by
  cases h : hg.diabetes <;> simp [sweetnessMsg, h] <;> decide

@[simp] lemma msgTag_sodiumMsg (hg : HealthGoals) : msgTag (sodiumMsg hg) = '🧂' := by
  cases h : hg.high_bp <;> simp [sodiumMsg, h] <;> decide

@[simp] lemma msgTag_proteinMsg : msgTag proteinMsg = '💪' := by decide

@[simp] lemma msgTag_fatMsg : msgTag fatMsg = '⚡' := by decide

@[simp] lemma msgTag_cholesterolMsg : msgTag cholesterolMsg = '🫀' := by decide

@[simp] lemma msgTag_potassiumMsg : msgTag potassiumMsg = '🍌' := by decide

@[simp] lemma msgTag_carbsMsg : msgTag carbsMsg = '🥖' := by decide

@[simp] lemma msgTag_fallbackMsg : msgTag fallbackMsg = '✅' := by decide

/-! ## Claim theorems -/

/-- C1: on the record with calories 600, sweetness 25, sodium 1600,
protein 5, fat 10, cholesterol 50, potassium 100, carbs 20 and all three
health-goal flags set, `give_recommendations` returns exactly three
messages, in order: the weight-loss-augmented calorie message, the
diabetes-augmented sweetness message, and the blood-pressure-augmented
sodium message. -/
theorem scenario_three_messages :
    give_recommendations
      { calories := some 600, sweetness := some 25, sodium := some 1600,
        proteins := some 5, total_fat := some 10, cholesterol := some 50,
        potassium := some 100, total_carbs := some 20 }
      (some { diabetes := true, weight_loss := true, high_bp := true }) =
    ["⚠️ High in calories. Try to limit this if you\x27re trying to lose weight.",
     "🍬 High sweetness level. This may spike blood sugar — go for lower glycemic index foods.",
     "🧂 Very salty! High sodium may increase blood pressure — consider low-sodium alternatives."] := by
  decide

/-- C2 (code bug): on a successful (status 200) lookup response whose
`foods` list is present but empty, `get_nutrition_info` does not return
the `None` failure that the caller surfaces as "could not fetch nutrition
information": `data['foods'][0]` raises an uncaught `IndexError`. A 200
response without the `foods` key does yield the `None` failure. -/
theorem empty_foods_list_uncaught_index_error :
    get_nutrition_info ⟨200, some []⟩ = LookupResult.indexError ∧
    get_nutrition_info ⟨200, some []⟩ ≠ LookupResult.noResult ∧
    get_nutrition_info ⟨200, none⟩ = LookupResult.noResult := by
  decide

/-- C3: every threshold is strict: for a record whose field is exactly at
its rule's threshold (calories 500, sweetness 20, sodium 1500, protein 15,
fat 20, cholesterol 200, potassium 400, carbs 50), that rule's message is
absent from the output, and the all-absent record (fields treated as 0)
fires no rule and yields just the fallback. -/
theorem thresholds_strict (n : NutritionRecord) (hg : HealthGoals) :
    (pyNum n.calories = 500 → caloriesMsg hg ∉ give_recommendations n (some hg)) ∧
    (pyNum n.sweetness = 20 → sweetnessMsg hg ∉ give_recommendations n (some hg)) ∧
    (pyNum n.sodium = 1500 → sodiumMsg hg ∉ give_recommendations n (some hg)) ∧
    (pyNum n.proteins = 15 → proteinMsg ∉ give_recommendations n (some hg)) ∧
    (pyNum n.total_fat = 20 → fatMsg ∉ give_recommendations n (some hg)) ∧
    (pyNum n.cholesterol = 200 → cholesterolMsg ∉ give_recommendations n (some hg)) ∧
    (pyNum n.potassium = 400 → potassiumMsg ∉ give_recommendations n (some hg)) ∧
    (pyNum n.total_carbs = 50 → carbsMsg ∉ give_recommendations n (some hg)) ∧
    give_recommendations emptyRecord (some hg) = [fallbackMsg] := by
  have hlast : give_recommendations emptyRecord (some hg) = [fallbackMsg] := by
    have hnf : noRuleFires emptyRecord := by decide
    rw [give_recommendations_some, if_pos ((triggeredAdvice_eq_nil_iff _ _).2 hnf)]
  refine ⟨?_, ?_, ?_, ?_, ?_, ?_, ?_, ?_, hlast⟩
  all_goals
    intro h hm
    rw [mem_give_recommendations_iff] at hm
    rcases hm with ⟨hc, he⟩ | ⟨hc, he⟩ | ⟨hc, he⟩ | ⟨hc, he⟩ | ⟨hc, he⟩ |
      ⟨hc, he⟩ | ⟨hc, he⟩ | ⟨hc, he⟩ | ⟨hc, he⟩ <;>
    first
      | (have ht := congrArg msgTag he
         simp only [msgTag_caloriesMsg, msgTag_sweetnessMsg, msgTag_sodiumMsg,
           msgTag_proteinMsg, msgTag_fatMsg, msgTag_cholesterolMsg,
           msgTag_potassiumMsg, msgTag_carbsMsg, msgTag_fallbackMsg] at ht
         revert ht
         decide)
      | (refine absurd hc ?_
         simp [firesCalories, firesSweetness, firesSodium, firesProtein,
           firesFat, firesCholesterol, firesPotassium, firesCarbs, h]
         done)

/-- Witness for `thresholds_strict` at the record with every field at its
threshold: the calorie and potassium rules do not fire there. -/
theorem thresholds_strict_inst :
    pyNum thresholdRecord.calories = 500 ∧
    caloriesMsg HealthGoals.allFalse ∉
      give_recommendations thresholdRecord (some HealthGoals.allFalse) ∧
    pyNum thresholdRecord.potassium = 400 ∧
    potassiumMsg ∉ give_recommendations thresholdRecord (some HealthGoals.allFalse) :=
  ⟨rfl, (thresholds_strict thresholdRecord HealthGoals.allFalse).1 rfl, rfl,
    (thresholds_strict thresholdRecord HealthGoals.allFalse).2.2.2.2.2.2.1 rfl⟩

/-- C4: when no rule condition holds the output is exactly the single
fallback message, and when exactly one rule condition holds the output is
exactly that rule's message, with no fallback. -/
theorem single_rule_single_message (n : NutritionRecord) (hg : HealthGoals) :
    (noRuleFires n → give_recommendations n (some hg) = [fallbackMsg]) ∧
    ((firesCalories n ∧ ¬firesSweetness n ∧ ¬firesSodium n ∧ ¬firesProtein n ∧
        ¬firesFat n ∧ ¬firesCholesterol n ∧ ¬firesPotassium n ∧ ¬firesCarbs n) →
      give_recommendations n (some hg) = [caloriesMsg hg]) ∧
    ((¬firesCalories n ∧ firesSweetness n ∧ ¬firesSodium n ∧ ¬firesProtein n ∧
        ¬firesFat n ∧ ¬firesCholesterol n ∧ ¬firesPotassium n ∧ ¬firesCarbs n) →
      give_recommendations n (some hg) = [sweetnessMsg hg]) ∧
    ((¬firesCalories n ∧ ¬firesSweetness n ∧ firesSodium n ∧ ¬firesProtein n ∧
        ¬firesFat n ∧ ¬firesCholesterol n ∧ ¬firesPotassium n ∧ ¬firesCarbs n) →
      give_recommendations n (some hg) = [sodiumMsg hg]) ∧
    ((¬firesCalories n ∧ ¬firesSweetness n ∧ ¬firesSodium n ∧ firesProtein n ∧
        ¬firesFat n ∧ ¬firesCholesterol n ∧ ¬firesPotassium n ∧ ¬firesCarbs n) →
      give_recommendations n (some hg) = [proteinMsg]) ∧
    ((¬firesCalories n ∧ ¬firesSweetness n ∧ ¬firesSodium n ∧ ¬firesProtein n ∧
        firesFat n ∧ ¬firesCholesterol n ∧ ¬firesPotassium n ∧ ¬firesCarbs n) →
      give_recommendations n (some hg) = [fatMsg]) ∧
    ((¬firesCalories n ∧ ¬firesSweetness n ∧ ¬firesSodium n ∧ ¬firesProtein n ∧
        ¬firesFat n ∧ firesCholesterol n ∧ ¬firesPotassium n ∧ ¬firesCarbs n) →
      give_recommendations n (some hg) = [cholesterolMsg]) ∧
    ((¬firesCalories n ∧ ¬firesSweetness n ∧ ¬firesSodium n ∧ ¬firesProtein n ∧
        ¬firesFat n ∧ ¬firesCholesterol n ∧ firesPotassium n ∧ ¬firesCarbs n) →
      give_recommendations n (some hg) = [potassiumMsg]) ∧
    ((¬firesCalories n ∧ ¬firesSweetness n ∧ ¬firesSodium n ∧ ¬firesProtein n ∧
        ¬firesFat n ∧ ¬firesCholesterol n ∧ ¬firesPotassium n ∧ firesCarbs n) →
      give_recommendations n (some hg) = [carbsMsg]) := by
  refine ⟨?_, ?_, ?_, ?_, ?_, ?_, ?_, ?_, ?_⟩
  · intro h
    rw [give_recommendations_some, if_pos ((triggeredAdvice_eq_nil_iff n hg).2 h)]
  all_goals
    rintro ⟨h1, h2, h3, h4, h5, h6, h7, h8⟩
    rw [give_recommendations_some]
    simp [triggeredAdvice, h1, h2, h3, h4, h5, h6, h7, h8]

/-- Witness for `single_rule_single_message`: the all-absent record yields
just the fallback, and a record with only protein 16 yields just the
protein message. -/
theorem single_rule_single_message_inst :
    give_recommendations emptyRecord (some HealthGoals.allFalse) = [fallbackMsg] ∧
    give_recommendations proteinOnlyRecord (some HealthGoals.allFalse) = [proteinMsg] :=
  ⟨(single_rule_single_message emptyRecord HealthGoals.allFalse).1 (by decide),
   (single_rule_single_message proteinOnlyRecord HealthGoals.allFalse).2.2.2.2.1 (by decide)⟩

lemma caloriesMsg_mem_iff (n : NutritionRecord) (hg : HealthGoals) :
    caloriesMsg hg ∈ give_recommendations n (some hg) ↔ firesCalories n := by
  rw [mem_give_recommendations_iff]
  constructor
  · rintro (⟨hc, _⟩ | ⟨_, he⟩ | ⟨_, he⟩ | ⟨_, he⟩ | ⟨_, he⟩ | ⟨_, he⟩ | ⟨_, he⟩ |
      ⟨_, he⟩ | ⟨_, he⟩)
    · exact hc
    all_goals
      have ht := congrArg msgTag he
      simp only [msgTag_caloriesMsg, msgTag_sweetnessMsg, msgTag_sodiumMsg,
        msgTag_proteinMsg, msgTag_fatMsg, msgTag_cholesterolMsg,
        msgTag_potassiumMsg, msgTag_carbsMsg, msgTag_fallbackMsg] at ht
      exact absurd ht (by decide)
  · exact fun hc => Or.inl ⟨hc, rfl⟩

/-- C5: for every record with calories above 500: with the weight-loss
flag false (or flags omitted, defaulting to all-false) the advisory list
contains the base calorie message and not the augmented form; with the
flag true it contains the weight-loss-augmented form. -/
theorem calorie_weight_loss_augmentation (n : NutritionRecord)
    (hgo : Option HealthGoals) (h : pyNum n.calories > 500) :
    ((hgo.getD HealthGoals.allFalse).weight_loss = false →
      "⚠️ High in calories." ∈ give_recommendations n hgo ∧
      "⚠️ High in calories. Try to limit this if you\x27re trying to lose weight." ∉
        give_recommendations n hgo) ∧
    ((hgo.getD HealthGoals.allFalse).weight_loss = true →
      "⚠️ High in calories. Try to limit this if you\x27re trying to lose weight." ∈
        give_recommendations n hgo) := by
  cases hgo with
  | none =>
    simp only [Option.getD_none]
    constructor
    · intro _
      constructor
      · exact (caloriesMsg_mem_iff n HealthGoals.allFalse).2 h
      · intro hm
        rw [give_recommendations_none, mem_give_recommendations_iff] at hm
        rcases hm with ⟨_, he⟩ | ⟨_, he⟩ | ⟨_, he⟩ | ⟨_, he⟩ | ⟨_, he⟩ | ⟨_, he⟩ |
          ⟨_, he⟩ | ⟨_, he⟩ | ⟨_, he⟩ <;> revert he <;> decide
    · intro hw
      simp [HealthGoals.allFalse] at hw
  | some hg =>
    simp only [Option.getD_some]
    cases hw : hg.weight_loss with
    | false =>
      have hbase : caloriesMsg hg = "⚠️ High in calories." := by simp [caloriesMsg, hw]
      constructor
      · intro _
        constructor
        · rw [← hbase]
          exact (caloriesMsg_mem_iff n hg).2 h
        · intro hm
          rw [mem_give_recommendations_iff] at hm
          rcases hm with ⟨_, he⟩ | ⟨_, he⟩ | ⟨_, he⟩ | ⟨_, he⟩ | ⟨_, he⟩ | ⟨_, he⟩ |
            ⟨_, he⟩ | ⟨_, he⟩ | ⟨_, he⟩ <;>
          first
            | (rw [hbase] at he
               revert he
               decide)
            | (have ht := congrArg msgTag he
               simp only [msgTag_caloriesMsg, msgTag_sweetnessMsg, msgTag_sodiumMsg,
                 msgTag_proteinMsg, msgTag_fatMsg, msgTag_cholesterolMsg,
                 msgTag_potassiumMsg, msgTag_carbsMsg, msgTag_fallbackMsg] at ht
               revert ht
               decide)
      · intro hw'
        exact Bool.noConfusion hw'
    | true =>
      have haug : caloriesMsg hg =
          "⚠️ High in calories. Try to limit this if you\x27re trying to lose weight." := by
        simp [caloriesMsg, hw]
      constructor
      · intro hw'
        exact Bool.noConfusion hw'
      · intro _
        rw [← haug]
        exact (caloriesMsg_mem_iff n hg).2 h

/-- Witness for `calorie_weight_loss_augmentation` at calories 600, with
flags omitted and with the weight-loss flag set. -/
theorem calorie_weight_loss_augmentation_inst :
    pyNum highCalRecord.calories > 500 ∧
    ("⚠️ High in calories." ∈ give_recommendations highCalRecord none ∧
      "⚠️ High in calories. Try to limit this if you\x27re trying to lose weight." ∉
        give_recommendations highCalRecord none) ∧
    "⚠️ High in calories. Try to limit this if you\x27re trying to lose weight." ∈
      give_recommendations highCalRecord (some ⟨false, true, false⟩) :=
  ⟨by decide,
   (calorie_weight_loss_augmentation highCalRecord none (by decide)).1 rfl,
   (calorie_weight_loss_augmentation highCalRecord (some ⟨false, true, false⟩) (by decide)).2 rfl⟩

lemma occursInChars_iff (pat l : List Char) : occursInChars pat l = true ↔ pat <:+: l := by
  induction l with
  | nil => simp [occursInChars, List.isEmpty_iff, List.infix_nil]
  | cons c cs ih =>
    simp [occursInChars, List.isPrefixOf_iff_prefix, List.infix_cons_iff, ih,
      Bool.or_eq_true]

/-- C6: `extract_health_goals` lower-cases its input and sets each flag
true exactly when one of its keyword substrings occurs in the lowered
text (diabetes from "diabetes"; weight loss from "weight loss" or
"losing weight"; blood pressure from "blood pressure", "bp" or
"hypertension"); on "I have diabetes and blood pressure issues" it
returns diabetes true, weight-loss false, blood-pressure true. -/
theorem health_goal_extraction_keywords (p : String) :
    ((extract_health_goals p).diabetes = true ↔ "diabetes".data <:+: (strLower p).data) ∧
    ((extract_health_goals p).weight_loss = true ↔
      ("weight loss".data <:+: (strLower p).data ∨
        "losing weight".data <:+: (strLower p).data)) ∧
    ((extract_health_goals p).high_bp = true ↔
      ("blood pressure".data <:+: (strLower p).data ∨ "bp".data <:+: (strLower p).data ∨
        "hypertension".data <:+: (strLower p).data)) ∧
    extract_health_goals "I have diabetes and blood pressure issues" =
      { diabetes := true, weight_loss := false, high_bp := true } := by
  refine ⟨?_, ?_, ?_, by decide⟩ <;>
    simp [extract_health_goals, strContains, occursInChars_iff, Bool.or_eq_true, or_assoc]

/-- C7: `analyze_sentiment` is sign-consistent with the polarity score:
strictly positive polarity yields the Positive label, strictly negative
the Negative label, exactly zero (as for empty text) the Neutral label;
and classifying the same text twice yields the same label. -/
theorem sentiment_sign_consistent (polarity : String → ℚ) (c : String) :
    (polarity c > 0 → analyze_sentiment polarity c = "😊 Positive") ∧
    (polarity c < 0 → analyze_sentiment polarity c = "😔 Negative") ∧
    (polarity c = 0 → analyze_sentiment polarity c = "😐 Neutral") ∧
    analyze_sentiment polarity c = analyze_sentiment polarity c := by
  refine ⟨fun h => ?_, fun h => ?_, fun h => ?_, rfl⟩
  · simp [analyze_sentiment, h]
  · simp [analyze_sentiment, h, lt_asymm h]
  · simp [analyze_sentiment, h]

/-- Witness for `sentiment_sign_consistent` on three fixed polarity
scorers: positive, negative, and zero (empty text). -/
theorem sentiment_sign_consistent_inst :
    analyze_sentiment (fun _ => 1) "good" = "😊 Positive" ∧
    analyze_sentiment (fun _ => -1) "bad" = "😔 Negative" ∧
    analyze_sentiment (fun _ => 0) "" = "😐 Neutral" :=
  ⟨(sentiment_sign_consistent (fun _ => 1) "good").1 (by decide),
   (sentiment_sign_consistent (fun _ => -1) "bad").2.1 (by decide),
   (sentiment_sign_consistent (fun _ => 0) "").2.2.1 rfl⟩

/-- C8: appending one feedback entry and then aggregating by sentiment
increments the new entry's sentiment count by exactly 1 and leaves every
other sentiment label's count unchanged. -/
theorem append_increments_sentiment_count (polarity : String → ℚ)
    (store : Option (List FeedbackEntry)) (user_name : String)
    (user_age satisfaction : ℕ) (comment : String) :
    sentimentCount (save_feedback polarity store user_name user_age satisfaction comment)
        (analyze_sentiment polarity comment) =
      sentimentCount (readStore store) (analyze_sentiment polarity comment) + 1 ∧
    ∀ label : String, label ≠ analyze_sentiment polarity comment →
      sentimentCount (save_feedback polarity store user_name user_age satisfaction comment)
          label =
        sentimentCount (readStore store) label := by
  constructor
  · cases store <;>
      simp [save_feedback, sentimentCount, readStore, List.filter_append]
  · intro label hl
    cases store <;>
      simp [save_feedback, sentimentCount, readStore, List.filter_append, Ne.symm hl]

/-- Witness for `append_increments_sentiment_count`: a single append to an
absent store, counted at the new entry's label and at a different label. -/
theorem append_increments_sentiment_count_inst :
    sentimentCount (save_feedback (fun _ => 0) none "Ann" 30 7 "ok")
        (analyze_sentiment (fun _ => 0) "ok") =
      sentimentCount (readStore none) (analyze_sentiment (fun _ => 0) "ok") + 1 ∧
    sentimentCount (save_feedback (fun _ => 0) none "Ann" 30 7 "ok") "😊 Positive" =
      sentimentCount (readStore none) "😊 Positive" :=
  ⟨(append_increments_sentiment_count (fun _ => 0) none "Ann" 30 7 "ok").1,
   (append_increments_sentiment_count (fun _ => 0) none "Ann" 30 7 "ok").2
     "😊 Positive" (by decide)⟩

lemma appendAllFrom_some (polarity : String → ℚ) (inputs : List FeedbackInput) :
    ∀ l : List FeedbackEntry,
      appendAllFrom polarity (some l) inputs = some (l ++ inputs.map (entryOf polarity)) := by
  induction inputs with
  | nil => intro l; simp [appendAllFrom]
  | cons i is ih =>
    intro l
    have hstep :
        save_feedback polarity (some l) i.user_name i.user_age i.satisfaction i.comment =
          l ++ [entryOf polarity i] := rfl
    calc appendAllFrom polarity (some l) (i :: is)
        = appendAllFrom polarity (some (l ++ [entryOf polarity i])) is := by
          simp [appendAllFrom, hstep]
      _ = some ((l ++ [entryOf polarity i]) ++ is.map (entryOf polarity)) := ih _
      _ = some (l ++ (i :: is).map (entryOf polarity)) := by simp

/-- C9: appending N entries to an initially absent store and reading it
back yields exactly the N entries in append order; each single append on
an existing store preserves all previously stored rows and just adds the
new one at the end; and the serialised file keeps exactly the columns
Name, Age, Satisfaction, Comment, Sentiment. -/
theorem store_append_order_preserved (polarity : String → ℚ)
    (inputs : List FeedbackInput) :
    readStore (appendAllFrom polarity none inputs) = inputs.map (entryOf polarity) ∧
    (readStore (appendAllFrom polarity none inputs)).length = inputs.length ∧
    feedbackCSV (readStore (appendAllFrom polarity none inputs)) =
      ["Name", "Age", "Satisfaction", "Comment", "Sentiment"] ::
        (inputs.map (entryOf polarity)).map entryRow ∧
    ∀ (l : List FeedbackEntry) (i : FeedbackInput),
      save_feedback polarity (some l) i.user_name i.user_age i.satisfaction i.comment =
        l ++ [entryOf polarity i] := by
  have hmain : readStore (appendAllFrom polarity none inputs) =
      inputs.map (entryOf polarity) := by
    cases inputs with
    | nil => rfl
    | cons i is =>
      have h0 : appendAllFrom polarity none (i :: is) =
          appendAllFrom polarity (some [entryOf polarity i]) is := rfl
      rw [h0, appendAllFrom_some polarity is [entryOf polarity i]]
      simp [readStore]
  refine ⟨hmain, by rw [hmain]; simp, by rw [hmain]; rfl, fun l i => rfl⟩

/-- C10: the potassium rule's extra truthiness guard is redundant: for
every value, `potassium and potassium > 400` is equivalent to the plain
strict comparison, and `give_recommendations` coincides with the variant
using the uniform rule shape on every input. -/
theorem potassium_guard_redundant :
    (∀ q : ℚ, (q ≠ 0 ∧ q > 400) ↔ q > 400) ∧
    ∀ (n : NutritionRecord) (hgo : Option HealthGoals),
      give_recommendations n hgo = give_recommendations_uniform n hgo := by
  have hiff : ∀ q : ℚ, (q ≠ 0 ∧ q > 400) ↔ q > 400 := by
    intro q
    constructor
    · exact fun h => h.2
    · intro h
      exact ⟨fun h0 => absurd (h0 ▸ h) (by norm_num), h⟩
  refine ⟨hiff, fun n hgo => ?_⟩
  by_cases hp : pyNum n.potassium > 400
  · have hne : pyNum n.potassium ≠ 0 := ((hiff (pyNum n.potassium)).2 hp).1
    simp [give_recommendations, give_recommendations_uniform, hp, hne]
  · simp [give_recommendations, give_recommendations_uniform, hp]

/-- Witness for `potassium_guard_redundant` at potassium 450. -/
theorem potassium_guard_redundant_inst :
    (((450 : ℚ) ≠ 0 ∧ (450 : ℚ) > 400) ↔ (450 : ℚ) > 400) ∧
    give_recommendations { potassium := some 450 } none =
      give_recommendations_uniform { potassium := some 450 } none :=
  ⟨potassium_guard_redundant.1 450,
   potassium_guard_redundant.2 { potassium := some 450 } none⟩
